import Mathlib

/-!
Verification development for the Moffett Clocker reminder-gating engine
(`manual_clocker.py`).  The definitions below are a shallow embedding of the
pure decision logic of the program: the hour-window test, the cutoff tests,
the per-day / per-month counter stores with rollover, phone normalization
(fallback path), and one tick of `monitor_loop` expressed as an explicit
state transition.  Machine integers are modelled as `Int` (Python ints are
unbounded); wall-clock epochs, idle readings and the streak are modelled as
integer-valued seconds (`Int`) — the decision logic only compares and
subtracts them against integer thresholds.
-/

/-- Reminder kinds tracked by the per-day counter store: `onK` models the
source's key "on" (clock-out idle reminder), `offK` the key "off" (clock-in
reminder), `smsK` the key "sms" (SMS clock-out reminder); `on` itself is a
reserved token here. -/
inductive Kind where
  | onK
  | offK
  | smsK
deriving DecidableEq, Repr

/-- Contents of `prompt_counts.json`: a date string and a count per kind
(fields `onC`/`offC`/`smsC` model the keys "on"/"off"/"sms"). -/
structure DayCounts where
  date : String
  onC : Int
  offC : Int
  smsC : Int
deriving DecidableEq, Repr

/-- Contents of `prompt_counts_month.json`: a month string and the sms count. -/
structure MonthCounts where
  month : String
  sms : Int
deriving DecidableEq, Repr

/-- Embeds `_load_counts`: the stored file content is `stored` (`none` models
a missing or unreadable file, which the source swallows into the default);
the result always carries today's date, and keeps the stored counts only
when the stored date equals today. -/
def load_counts (stored : Option DayCounts) (today : String) : DayCounts :=
  match stored with
  | none => ⟨today, 0, 0, 0⟩
  | some l => if l.date = today then ⟨today, l.onC, l.offC, l.smsC⟩ else ⟨today, 0, 0, 0⟩

/-- Embeds `get_count`: read the per-day counter for a kind (with rollover). -/
def get_count (stored : Option DayCounts) (today : String) (k : Kind) : Int :=
  match k with
  | .onK => (load_counts stored today).onC
  | .offK => (load_counts stored today).offC
  | .smsK => (load_counts stored today).smsC

/-- Embeds `inc_count`: load with rollover, then add one to the given kind. -/
def inc_count (stored : Option DayCounts) (today : String) (k : Kind) : DayCounts :=
  let d := load_counts stored today
  match k with
  | .onK => { d with onC := d.onC + 1 }
  | .offK => { d with offC := d.offC + 1 }
  | .smsK => { d with smsC := d.smsC + 1 }

/-- Embeds `_load_month_counts`: monthly rollover, analogous to `load_counts`. -/
def load_month_counts (stored : Option MonthCounts) (current : String) : MonthCounts :=
  match stored with
  | none => ⟨current, 0⟩
  | some l => if l.month = current then ⟨current, l.sms⟩ else ⟨current, 0⟩

/-- Embeds `get_month_sms_count`. -/
def get_month_sms_count (stored : Option MonthCounts) (current : String) : Int :=
  (load_month_counts stored current).sms

/-- Embeds `inc_month_sms_count`. -/
def inc_month_sms_count (stored : Option MonthCounts) (current : String) : MonthCounts :=
  let d := load_month_counts stored current
  { d with sms := d.sms + 1 }

/-- Embeds `is_in_hour_window`: clamp the three arguments, then test the
half-open window `[s, e)` with wrap-around across midnight. -/
def is_in_hour_window (start_hour end_hour now_hour : Int) : Bool :=
  let s := max 0 (min 23 start_hour)
  let e := max 1 (min 24 end_hour)
  let h := max 0 (min 23 now_hour)
  if s = e then
    true
  else if s < e then
    decide (s ≤ h ∧ h < e)
  else
    decide (h ≥ s ∨ h < e)

/-- Embeds `is_before_cutoff_local` for an integer cutoff (the source's
`int()` conversion is the identity on integers): cutoff ≥ 24 always allows,
cutoff below 1 is clamped to 1, otherwise require `now_hour < cutoff`. -/
def is_before_cutoff_local (cutoff_hour now_hour : Int) : Bool :=
  if 24 ≤ cutoff_hour then
    true
  else
    let c := if cutoff_hour < 1 then 1 else cutoff_hour
    decide (now_hour < c)

/-- Embeds `is_after_cutoff_local` for an integer after-hour: clamp to
`[0, 23]`, then require `now_hour ≥ a`. -/
def is_after_cutoff_local (after_hour now_hour : Int) : Bool :=
  let a := max 0 (min 23 after_hour)
  decide (now_hour ≥ a)

/-- Days of the week, as keyed by `_weekday_key`. -/
inductive Weekday where
  | mon | tue | wed | thu | fri | sat | sun
deriving DecidableEq, Repr

/-- The `notify_days` mask of the settings document. -/
structure NotifyDays where
  mon : Bool
  tue : Bool
  wed : Bool
  thu : Bool
  fri : Bool
  sat : Bool
  sun : Bool
deriving DecidableEq, Repr

/-- Look up the mask entry for a weekday. -/
def NotifyDays.get (d : NotifyDays) : Weekday → Bool
  | .mon => d.mon
  | .tue => d.tue
  | .wed => d.wed
  | .thu => d.thu
  | .fri => d.fri
  | .sat => d.sat
  | .sun => d.sun

/-- A validated (well-typed) settings snapshot, fields as in
`DEFAULT_SETTINGS`.  Numeric values are `Int` as produced by the source's
`int()` conversions. -/
structure Settings where
  enable_clock_in_reminder : Bool
  clock_in_cutoff_hour : Int
  active_threshold_off_min : Int
  off_prompt_cooldown_min : Int
  max_clock_in_per_day : Int
  enable_clock_out_idle_reminder : Bool
  on_idle_threshold_min : Int
  on_idle_prompt_cooldown_min : Int
  on_idle_after_hour : Int
  max_clock_out_per_day : Int
  enable_sms_clock_out_reminder : Bool
  sms_phone_e164 : String
  sms_idle_threshold_min : Int
  sms_max_per_day : Int
  sms_window_start_hour : Int
  sms_window_end_hour : Int
  sms_max_per_month : Int
  notify_days : NotifyDays
  active_idle_cutoff_sec : Int
deriving Repr

/-- Embeds `is_notification_day_enabled`: read the weekday's entry of the
`notify_days` mask. -/
def is_notification_day_enabled (cfg : Settings) (w : Weekday) : Bool :=
  cfg.notify_days.get w

/-- Fixed poll interval of the monitor loop (`POLL_INTERVAL_SEC`). -/
def POLL_INTERVAL_SEC : Int := 10

/-- Mutable process / file state touched by one tick of `monitor_loop`:
the current clock status string, the in-memory activity streak, the two
counter files and the two last-fired epoch files. -/
structure St where
  status : String
  streak : Int
  day : Option DayCounts
  month : Option MonthCounts
  lastOn : Int
  lastOff : Int
deriving DecidableEq, Repr

/-- Per-tick inputs read from the environment: idle seconds, current epoch
time, current hour, weekday, the date and month strings, and the result the
SMS transport would report if invoked this tick. -/
structure TickIn where
  idle : Int
  now : Int
  nowHour : Int
  weekday : Weekday
  today : String
  month : String
  smsOk : Bool
deriving Repr

/-- Observable actions of one tick: whether the clock-out desktop reminder
fired, whether the clock-in desktop reminder fired, whether an SMS send was
attempted, and whether the transport reported success for it. -/
structure Acts where
  firedOn : Bool
  firedOff : Bool
  smsAttempt : Bool
  smsSent : Bool
deriving DecidableEq, Repr

/-- The empty action set. -/
def Acts.none : Acts := ⟨false, false, false, false⟩

/-- Core of the clock-out idle branch of `monitor_loop` (status `"On"`),
taking the already-converted numeric settings as arguments.  Returns the
updated state and whether the reminder fired. -/
def onCore (thrMin coolMin afterHour maxPerDay : Int) (inp : TickIn) (st : St) :
    St × Bool :=
  if thrMin * 60 ≤ inp.idle ∧
      is_after_cutoff_local afterHour inp.nowHour then
    if get_count st.day inp.today .onK < max 0 maxPerDay then
      if coolMin * 60 ≤ inp.now - st.lastOn then
        ({ st with lastOn := inp.now, day := some (inc_count st.day inp.today .onK) },
          true)
      else (st, false)
    else (st, false)
  else (st, false)

/-- The per-tick activity-streak update while clocked Off: accumulate by the
poll interval while idle is below the cutoff, otherwise reset to zero. -/
def streakUpd (cutoffSec : Int) (inp : TickIn) (st : St) : St :=
  { st with
    streak := if inp.idle < cutoffSec then st.streak + POLL_INTERVAL_SEC else 0 }

/-- Core of the clock-in branch of `monitor_loop` (status `"Off"`): first
update the activity streak from the idle reading, then evaluate the gates. -/
def offCore (cutoffSec thrMin coolMin cutoffHour maxPerDay : Int) (inp : TickIn)
    (st : St) : St × Bool :=
  let st0 := streakUpd cutoffSec inp st
  if thrMin * 60 ≤ st0.streak ∧
      is_before_cutoff_local cutoffHour inp.nowHour then
    if get_count st0.day inp.today .offK < max 0 maxPerDay then
      if coolMin * 60 ≤ inp.now - st0.lastOff then
        ({ st0 with lastOff := inp.now, day := some (inc_count st0.day inp.today .offK) },
          true)
      else (st0, false)
    else (st0, false)
  else (st0, false)

/-- Embeds Python's `str.strip()`: drop whitespace from both ends. -/
def pyStrip (s : String) : String :=
  String.mk (((s.toList.dropWhile Char.isWhitespace).reverse.dropWhile
    Char.isWhitespace).reverse)

/-- Core of the SMS branch of `monitor_loop`: gates on a non-empty phone,
the hour window, the idle threshold and the dual daily/monthly cap; on a
gate pass the transport is invoked, and only a reported success increments
the two sms counters.  Returns (state, attempted, sent). -/
def smsCore (thrMin maxDay maxMonth startHour endHour : Int) (phone : String)
    (inp : TickIn) (st : St) : St × Bool × Bool :=
  if pyStrip phone ≠ "" ∧
      is_in_hour_window startHour endHour inp.nowHour ∧
      thrMin * 60 ≤ inp.idle then
    if get_count st.day inp.today .smsK < max 0 maxDay ∧
        get_month_sms_count st.month inp.month < max 0 maxMonth then
      if inp.smsOk then
        ({ st with day := some (inc_count st.day inp.today .smsK),
                   month := some (inc_month_sms_count st.month inp.month) },
          true, true)
      else (st, true, false)
    else (st, false, false)
  else (st, false, false)

/-- One tick of `monitor_loop` for a well-typed settings snapshot: the
global weekday gate, then the `if/elif` over the two desktop branches, then
the independent SMS branch. -/
def tick (cfg : Settings) (inp : TickIn) (st : St) : St × Acts :=
  if is_notification_day_enabled cfg inp.weekday then
    let p1 : St × Bool × Bool :=
      if st.status = "On" ∧ cfg.enable_clock_out_idle_reminder then
        let r := onCore cfg.on_idle_threshold_min cfg.on_idle_prompt_cooldown_min
          cfg.on_idle_after_hour cfg.max_clock_out_per_day inp st
        (r.1, r.2, false)
      else if st.status = "Off" ∧ cfg.enable_clock_in_reminder then
        let r := offCore cfg.active_idle_cutoff_sec cfg.active_threshold_off_min
          cfg.off_prompt_cooldown_min cfg.clock_in_cutoff_hour
          cfg.max_clock_in_per_day inp st
        (r.1, false, r.2)
      else (st, false, false)
    let p2 : St × Bool × Bool :=
      if st.status = "On" ∧ cfg.enable_sms_clock_out_reminder then
        smsCore cfg.sms_idle_threshold_min cfg.sms_max_per_day cfg.sms_max_per_month
          cfg.sms_window_start_hour cfg.sms_window_end_hour cfg.sms_phone_e164
          inp p1.1
      else (p1.1, false, false)
    (p2.1, ⟨p1.2.1, p1.2.2, p2.2.1, p2.2.2⟩)
  else (st, Acts.none)

/-- Embeds `set_status`: an explicit clock-state change stores the new
status and resets the activity streak to zero. -/
def set_status (st : St) (status : String) : St :=
  { st with status := status, streak := 0 }

/-- Run a list of ticks in order, collecting each tick's actions. -/
def ticks (cfg : Settings) : List TickIn → St → St × List Acts
  | [], st => (st, [])
  | i :: is, st =>
    let r := tick cfg i st
    let rest := ticks cfg is r.1
    (rest.1, r.2 :: rest.2)

/-- Daily cap setting that gates each counter kind in `monitor_loop`. -/
def dailyCap (cfg : Settings) : Kind → Int
  | .onK => cfg.max_clock_out_per_day
  | .offK => cfg.max_clock_in_per_day
  | .smsK => cfg.sms_max_per_day

/-- The action flag that constitutes a "fire" of each kind: a shown desktop
notification for `on` / `off`, an attempted SMS send for `sms`. -/
def firedKind (a : Acts) : Kind → Bool
  | .onK => a.firedOn
  | .offK => a.firedOff
  | .smsK => a.smsAttempt

/-- Embeds the fallback path of `_normalize_phone_e164` (used when the
`phonenumbers` library is unavailable): keep only digits and `+`, require
the kept text to start with `+`, then require 8–15 digits. -/
def normalize_phone_e164_fallback (raw : String) : String :=
  match raw.toList.filter (fun c => c.isDigit || c == '+') with
  | c :: rest =>
    if c = '+' then
      let digits := rest.filter (fun c => c.isDigit)
      if 8 ≤ digits.length ∧ digits.length ≤ 15 then String.mk ('+' :: digits) else ""
    else ""
  | [] => ""

/-- Value of an unsigned decimal digit run; `none` when empty or when a
non-digit occurs.  The digits are consumed most-significant first. -/
def digitsVal : List Char → Option Nat
  | [] => none
  | c :: cs =>
    if c.isDigit then
      match cs with
      | [] => some (c.toNat - 48)
      | _ => (digitsVal cs).map (fun n => (c.toNat - 48) * 10 ^ cs.length + n)
    else none

/-- Decimal integer parsing of an already-stripped string, as Python's
`int(·)` accepts it: an optional sign followed by one or more digits
(underscore grouping is not modelled). -/
def pyStrToInt (s : String) : Option Int :=
  match s.toList with
  | '-' :: ds => (digitsVal ds).map (fun n => -(n : Int))
  | '+' :: ds => (digitsVal ds).map (fun n => (n : Int))
  | ds => (digitsVal ds).map (fun n => (n : Int))

/-- A Python/JSON value as it may appear for a numeric settings key after
`load_settings` (which merges by key but does not validate types). -/
inductive PyVal where
  | int (n : Int)
  | bool (b : Bool)
  | str (s : String)
deriving DecidableEq, Repr

/-- Embeds Python's `int(·)` on a settings value: the identity on ints,
0/1 on booleans, decimal parsing on (whitespace-stripped) strings; `none`
models the `ValueError` / `TypeError` raised on a malformed value. -/
def pyInt : PyVal → Option Int
  | .int n => some n
  | .bool b => some (if b then 1 else 0)
  | .str s => pyStrToInt (pyStrip s)

/-- A raw settings snapshot as held by the settings cache: numeric keys may
carry arbitrary JSON values and are only converted with `int(·)` at their
point of use inside `monitor_loop`. -/
structure RawSettings where
  enable_clock_in_reminder : Bool
  clock_in_cutoff_hour : PyVal
  active_threshold_off_min : PyVal
  off_prompt_cooldown_min : PyVal
  max_clock_in_per_day : PyVal
  enable_clock_out_idle_reminder : Bool
  on_idle_threshold_min : PyVal
  on_idle_prompt_cooldown_min : PyVal
  on_idle_after_hour : PyVal
  max_clock_out_per_day : PyVal
  enable_sms_clock_out_reminder : Bool
  sms_phone_e164 : String
  sms_idle_threshold_min : PyVal
  sms_max_per_day : PyVal
  sms_window_start_hour : PyVal
  sms_window_end_hour : PyVal
  sms_max_per_month : PyVal
  notify_days : NotifyDays
  active_idle_cutoff_sec : PyVal
deriving Repr

/-- The clock-out idle branch with raw settings: the four `int(·)`
conversions happen before any state update, so a failure (`none`) raises
with the state untouched. -/
def onBranchRaw (cfg : RawSettings) (inp : TickIn) (st : St) : Option (St × Bool) :=
  match pyInt cfg.on_idle_threshold_min, pyInt cfg.on_idle_prompt_cooldown_min,
      pyInt cfg.on_idle_after_hour, pyInt cfg.max_clock_out_per_day with
  | some t, some c, some a, some m => some (onCore t c a m inp st)
  | _, _, _, _ => none

/-- The clock-in branch with raw settings: `active_idle_cutoff_sec` is
converted first (failure raises with the state untouched), then the streak
is updated, then the remaining conversions happen (a failure there raises
with the streak already updated — the error payload carries that state). -/
def offBranchRaw (cfg : RawSettings) (inp : TickIn) (st : St) : Except St (St × Bool) :=
  match pyInt cfg.active_idle_cutoff_sec with
  | none => .error st
  | some cut =>
    match pyInt cfg.active_threshold_off_min, pyInt cfg.off_prompt_cooldown_min,
        pyInt cfg.clock_in_cutoff_hour, pyInt cfg.max_clock_in_per_day with
    | some t, some c, some ch, some m => .ok (offCore cut t c ch m inp st)
    | _, _, _, _ => .error (streakUpd cut inp st)

/-- The SMS branch with raw settings: all five `int(·)` conversions happen
before any state update. -/
def smsBranchRaw (cfg : RawSettings) (inp : TickIn) (st : St) :
    Option (St × Bool × Bool) :=
  match pyInt cfg.sms_idle_threshold_min, pyInt cfg.sms_max_per_day,
      pyInt cfg.sms_max_per_month, pyInt cfg.sms_window_start_hour,
      pyInt cfg.sms_window_end_hour with
  | some t, some d, some m, some s, some e =>
    some (smsCore t d m s e cfg.sms_phone_e164 inp st)
  | _, _, _, _, _ => none

/-- Outcome of one tick under raw settings: final state, actions performed
before any raise, and whether the tick raised (the source catches the
exception at the top of `monitor_loop` and merely skips to the next tick). -/
structure RawOut where
  st : St
  acts : Acts
  raised : Bool
deriving DecidableEq, Repr

/-- One tick of `monitor_loop` for a raw settings snapshot, with Python's
exception propagation made explicit: a failed `int(·)` aborts the remainder
of the tick, keeping whatever updates already happened. -/
def tickRaw (cfg : RawSettings) (inp : TickIn) (st : St) : RawOut :=
  if cfg.notify_days.get inp.weekday then
    let branch1 : Except St (St × Bool × Bool) :=
      if st.status = "On" ∧ cfg.enable_clock_out_idle_reminder then
        match onBranchRaw cfg inp st with
        | none => .error st
        | some r => .ok (r.1, r.2, false)
      else if st.status = "Off" ∧ cfg.enable_clock_in_reminder then
        match offBranchRaw cfg inp st with
        | .error s1 => .error s1
        | .ok r => .ok (r.1, false, r.2)
      else .ok (st, false, false)
    match branch1 with
    | .error s1 => ⟨s1, Acts.none, true⟩
    | .ok (st1, fOn, fOff) =>
      if st.status = "On" ∧ cfg.enable_sms_clock_out_reminder then
        match smsBranchRaw cfg inp st1 with
        | none => ⟨st1, ⟨fOn, fOff, false, false⟩, true⟩
        | some r => ⟨r.1, ⟨fOn, fOff, r.2.1, r.2.2⟩, false⟩
      else ⟨st1, ⟨fOn, fOff, false, false⟩, false⟩
  else ⟨st, Acts.none, false⟩

/-- Modelled from the spec (§4.1 failure/edge policy), for comparison with
the source behaviour: "any malformed numeric setting is replaced with its
documented default before evaluation".  Each numeric field falls back to
its `DEFAULT_SETTINGS` value when `int(·)` would fail. -/
def substDefaults (cfg : RawSettings) : Settings where
  enable_clock_in_reminder := cfg.enable_clock_in_reminder
  clock_in_cutoff_hour := (pyInt cfg.clock_in_cutoff_hour).getD 15
  active_threshold_off_min := (pyInt cfg.active_threshold_off_min).getD 30
  off_prompt_cooldown_min := (pyInt cfg.off_prompt_cooldown_min).getD 210
  max_clock_in_per_day := (pyInt cfg.max_clock_in_per_day).getD 3
  enable_clock_out_idle_reminder := cfg.enable_clock_out_idle_reminder
  on_idle_threshold_min := (pyInt cfg.on_idle_threshold_min).getD 45
  on_idle_prompt_cooldown_min := (pyInt cfg.on_idle_prompt_cooldown_min).getD 210
  on_idle_after_hour := (pyInt cfg.on_idle_after_hour).getD 0
  max_clock_out_per_day := (pyInt cfg.max_clock_out_per_day).getD 3
  enable_sms_clock_out_reminder := cfg.enable_sms_clock_out_reminder
  sms_phone_e164 := cfg.sms_phone_e164
  sms_idle_threshold_min := (pyInt cfg.sms_idle_threshold_min).getD 60
  sms_max_per_day := (pyInt cfg.sms_max_per_day).getD 1
  sms_window_start_hour := (pyInt cfg.sms_window_start_hour).getD 12
  sms_window_end_hour := (pyInt cfg.sms_window_end_hour).getD 22
  sms_max_per_month := (pyInt cfg.sms_max_per_month).getD 10
  notify_days := cfg.notify_days
  active_idle_cutoff_sec := (pyInt cfg.active_idle_cutoff_sec).getD 300

/-- A concrete settings snapshot with the documented defaults, the SMS
reminder enabled and a valid phone number; weekdays enabled Mon–Fri. -/
def cfg0 : Settings where
  enable_clock_in_reminder := true
  clock_in_cutoff_hour := 15
  active_threshold_off_min := 30
  off_prompt_cooldown_min := 210
  max_clock_in_per_day := 3
  enable_clock_out_idle_reminder := true
  on_idle_threshold_min := 45
  on_idle_prompt_cooldown_min := 210
  on_idle_after_hour := 0
  max_clock_out_per_day := 3
  enable_sms_clock_out_reminder := true
  sms_phone_e164 := "+358401234567"
  sms_idle_threshold_min := 60
  sms_max_per_day := 1
  sms_window_start_hour := 12
  sms_window_end_hour := 22
  sms_max_per_month := 10
  notify_days := ⟨true, true, true, true, true, false, false⟩
  active_idle_cutoff_sec := 300

/-- A concrete clocked-in state with no prior prompts today. -/
def st0 : St where
  status := "On"
  streak := 0
  day := none
  month := none
  lastOn := 0
  lastOff := 0

/-- A concrete Monday-afternoon tick input with one hour of idle time. -/
def inp0 : TickIn where
  idle := 3600
  now := 100000
  nowHour := 13
  weekday := .mon
  today := "2026-10-12"
  month := "2026-10"
  smsOk := true

/-- Injection of a well-typed snapshot into the raw representation: every
numeric key holds an actual integer. -/
def rawOfSettings (s : Settings) : RawSettings where
  enable_clock_in_reminder := s.enable_clock_in_reminder
  clock_in_cutoff_hour := .int s.clock_in_cutoff_hour
  active_threshold_off_min := .int s.active_threshold_off_min
  off_prompt_cooldown_min := .int s.off_prompt_cooldown_min
  max_clock_in_per_day := .int s.max_clock_in_per_day
  enable_clock_out_idle_reminder := s.enable_clock_out_idle_reminder
  on_idle_threshold_min := .int s.on_idle_threshold_min
  on_idle_prompt_cooldown_min := .int s.on_idle_prompt_cooldown_min
  on_idle_after_hour := .int s.on_idle_after_hour
  max_clock_out_per_day := .int s.max_clock_out_per_day
  enable_sms_clock_out_reminder := s.enable_sms_clock_out_reminder
  sms_phone_e164 := s.sms_phone_e164
  sms_idle_threshold_min := .int s.sms_idle_threshold_min
  sms_max_per_day := .int s.sms_max_per_day
  sms_window_start_hour := .int s.sms_window_start_hour
  sms_window_end_hour := .int s.sms_window_end_hour
  sms_max_per_month := .int s.sms_max_per_month
  notify_days := s.notify_days
  active_idle_cutoff_sec := .int s.active_idle_cutoff_sec

/-- A raw snapshot equal to `rawOfSettings cfg0` except that the clock-out
idle threshold holds the non-numeric string "abc". -/
def cfgBad : RawSettings :=
  { rawOfSettings cfg0 with on_idle_threshold_min := .str "abc" }

/-- The default settings with the clock-in reminder disabled (and SMS off). -/
def cfgNoCI : Settings :=
  { cfg0 with enable_clock_in_reminder := false,
              enable_sms_clock_out_reminder := false }

/-- A concrete clocked-out state with a 1790-second activity streak. -/
def stOff : St where
  status := "Off"
  streak := 1790
  day := none
  month := none
  lastOn := 0
  lastOff := 0

/-- The Monday tick input with the user active (zero idle seconds). -/
def inpActive : TickIn := { inp0 with idle := 0 }

/-- The same tick input on a Saturday (disabled in `cfg0.notify_days`). -/
def inpSat : TickIn := { inp0 with weekday := .sat }

/-- The record produced by `load_counts` always carries today's date. -/
theorem load_counts_date_eq (d : Option DayCounts) (t : String) :
    (load_counts d t).date = t := by
  cases d with
  | none => rfl
  | some l =>
    simp only [load_counts]
    split <;> rfl

/-- Loading a record whose date is already today returns it unchanged. -/
theorem load_counts_stable {t : String} {x : DayCounts} (h : x.date = t) :
    load_counts (some x) t = x := by
  cases x
  simp_all [load_counts]

/-- Incrementing keeps the record dated today. -/
theorem inc_count_date (d : Option DayCounts) (t : String) (k : Kind) :
    (inc_count d t k).date = t := by
  cases k <;> simp [inc_count, load_counts_date_eq]

/-- Reading back an incremented store needs no rollover. -/
theorem load_counts_inc (d : Option DayCounts) (t : String) (k : Kind) :
    load_counts (some (inc_count d t k)) t = inc_count d t k :=
  load_counts_stable (inc_count_date d t k)

/-- Incrementing a kind raises that kind's same-day reading by one. -/
theorem get_count_inc_self (d : Option DayCounts) (t : String) (k : Kind) :
    get_count (some (inc_count d t k)) t k = get_count d t k + 1 := by
  cases k <;>
    (simp only [get_count]; rw [load_counts_inc]; simp [inc_count, get_count])

/-- Incrementing one kind leaves the other kinds' same-day readings alone. -/
theorem get_count_inc_of_ne (d : Option DayCounts) (t : String) {k k' : Kind}
    (h : k' ≠ k) : get_count (some (inc_count d t k')) t k = get_count d t k := by
  cases k <;> cases k' <;>
    first
    | exact absurd rfl h
    | (simp only [get_count]; rw [load_counts_inc]; simp [inc_count, get_count])

/-- Monthly analogue of `load_counts_date_eq`. -/
theorem load_month_counts_month_eq (d : Option MonthCounts) (c : String) :
    (load_month_counts d c).month = c := by
  cases d with
  | none => rfl
  | some l =>
    simp only [load_month_counts]
    split <;> rfl

/-- Monthly analogue of `load_counts_stable`. -/
theorem load_month_counts_stable {c : String} {x : MonthCounts} (h : x.month = c) :
    load_month_counts (some x) c = x := by
  cases x
  simp_all [load_month_counts]

/-- Monthly analogue of `load_counts_inc`. -/
theorem load_month_counts_inc (d : Option MonthCounts) (c : String) :
    load_month_counts (some (inc_month_sms_count d c)) c = inc_month_sms_count d c :=
  load_month_counts_stable (by simp [inc_month_sms_count, load_month_counts_month_eq])

/-- Monthly analogue of `get_count_inc_self`. -/
theorem get_month_inc_self (d : Option MonthCounts) (c : String) :
    get_month_sms_count (some (inc_month_sms_count d c)) c =
      get_month_sms_count d c + 1 := by
  simp only [get_month_sms_count]
  rw [load_month_counts_inc]
  simp [inc_month_sms_count, get_month_sms_count]

/-- C2: for s in [0,23], e in [1,24], h in [0,23] the hour-window test is
always true when s = e; for s < e it is true iff s ≤ h < e; and for s > e
(midnight wraparound) it is true iff h ≥ s or h < e. -/
theorem hour_window_canonical (s e h : Int)
    (hs0 : 0 ≤ s) (hs1 : s ≤ 23) (he0 : 1 ≤ e) (he1 : e ≤ 24)
    (hh0 : 0 ≤ h) (hh1 : h ≤ 23) :
    (s = e → is_in_hour_window s e h = true) ∧
    (s < e → (is_in_hour_window s e h = true ↔ s ≤ h ∧ h < e)) ∧
    (s > e → (is_in_hour_window s e h = true ↔ h ≥ s ∨ h < e)) := by
  have cs : max 0 (min 23 s) = s := by omega
  have ce : max 1 (min 24 e) = e := by omega
  have ch : max 0 (min 23 h) = h := by omega
  simp only [is_in_hour_window, cs, ce, ch]
  refine ⟨fun hse => by simp [hse], fun hlt => ?_, fun hgt => ?_⟩
  · rw [if_neg (by omega), if_pos hlt]
    simp
  · rw [if_neg (by omega), if_neg (by omega)]
    simp

/-- Witness for `hour_window_canonical`: the in-range window 12–22 contains
hour 13, and the wrapping window 22–6 contains hour 23. -/
theorem hour_window_canonical_witness :
    (is_in_hour_window 12 22 13 = true ↔ (12 : Int) ≤ 13 ∧ (13 : Int) < 22) ∧
    (is_in_hour_window 22 6 23 = true ↔ (23 : Int) ≥ 22 ∨ (23 : Int) < 6) :=
  ⟨(hour_window_canonical 12 22 13 (by decide) (by decide) (by decide) (by decide)
      (by decide) (by decide)).2.1 (by decide),
   (hour_window_canonical 22 6 23 (by decide) (by decide) (by decide) (by decide)
      (by decide) (by decide)).2.2 (by decide)⟩

/-- C10: the hour-window test is total over all integers: it clamps its
three arguments into the documented ranges and agrees with itself on the
clamped (in-range) values. -/
theorem hour_window_total (s e h : Int) :
    (0 ≤ max 0 (min 23 s) ∧ max 0 (min 23 s) ≤ 23) ∧
    (1 ≤ max 1 (min 24 e) ∧ max 1 (min 24 e) ≤ 24) ∧
    (0 ≤ max 0 (min 23 h) ∧ max 0 (min 23 h) ≤ 23) ∧
    is_in_hour_window s e h =
      is_in_hour_window (max 0 (min 23 s)) (max 1 (min 24 e)) (max 0 (min 23 h)) := by
  have cs : max 0 (min 23 (max 0 (min 23 s))) = max 0 (min 23 s) := by omega
  have ce : max 1 (min 24 (max 1 (min 24 e))) = max 1 (min 24 e) := by omega
  have ch : max 0 (min 23 (max 0 (min 23 h))) = max 0 (min 23 h) := by omega
  refine ⟨⟨by omega, by omega⟩, ⟨by omega, by omega⟩, ⟨by omega, by omega⟩, ?_⟩
  conv_rhs => rw [is_in_hour_window]
  rw [is_in_hour_window]
  simp only [cs, ce, ch]

/-- C5: a stored day record dated before today reads back as all-zero
counts dated today; a stored month record from a prior month reads back as
a zero sms count for the current month. -/
theorem counter_rollover (x : DayCounts) (mc : MonthCounts) (today cur : String)
    (hd : x.date ≠ today) (hm : mc.month ≠ cur) :
    load_counts (some x) today = ⟨today, 0, 0, 0⟩ ∧
    load_month_counts (some mc) cur = ⟨cur, 0⟩ :=
  ⟨by simp [load_counts, hd], by simp [load_month_counts, hm]⟩

/-- Witness for `counter_rollover` at a concrete stale record. -/
theorem counter_rollover_witness :
    load_counts (some ⟨"2026-10-11", 2, 1, 1⟩) "2026-10-12" =
      ⟨"2026-10-12", 0, 0, 0⟩ ∧
    load_month_counts (some ⟨"2026-09", 7⟩) "2026-10" = ⟨"2026-10", 0⟩ :=
  counter_rollover ⟨"2026-10-11", 2, 1, 1⟩ ⟨"2026-09", 7⟩ "2026-10-12" "2026-10"
    (by decide) (by decide)

/-- C7: a tick on a weekday disabled in the notify-days mask changes no
state at all (streak, counters and cooldown timestamps included) and fires
no action. -/
theorem disabled_day_skips_tick (cfg : Settings) (inp : TickIn) (st : St)
    (h : is_notification_day_enabled cfg inp.weekday = false) :
    tick cfg inp st = (st, Acts.none) := by
  simp [tick, h]

/-- Witness for `disabled_day_skips_tick`: Saturday under `cfg0`. -/
theorem disabled_day_skips_tick_witness :
    tick cfg0 inpSat stOff = (stOff, Acts.none) :=
  disabled_day_skips_tick cfg0 inpSat stOff (by decide)

/-- Filtering for digits after filtering for digits-or-plus keeps exactly
the digits of the original list. -/
theorem filter_digit_filter_keep (l : List Char) :
    (l.filter (fun c => c.isDigit || c == '+')).filter (fun c => c.isDigit) =
      l.filter (fun c => c.isDigit) := by
  induction l with
  | nil => rfl
  | cons a as ih =>
    by_cases ha : a.isDigit = true
    · simp [List.filter_cons, ha, ih]
    · by_cases hp : a = '+'
      · simp [List.filter_cons, ha, hp, ih]
      · simp [List.filter_cons, ha, hp, ih]

/-- C9 counterexample: the input "a+12345678" does not have a leading '+',
yet the fallback normalization returns the non-empty "+12345678" (the
source only requires that no digit precede the first '+'). -/
theorem phone_fallback_counterexample :
    "a+12345678".toList.head? = some 'a' ∧
    normalize_phone_e164_fallback "a+12345678" = "+12345678" ∧
    normalize_phone_e164_fallback "a+12345678" ≠ "" := by decide

/-- C9 (amended): the fallback normalization returns a non-empty result iff
the first kept (digit-or-plus) character of the input is '+' and the input
holds 8-15 digits; any non-empty result is '+' followed by exactly the
input's digits. -/
theorem phone_fallback_spec (raw : String) :
    (normalize_phone_e164_fallback raw ≠ "" ↔
      ((raw.toList.filter (fun c => c.isDigit || c == '+')).head? = some '+' ∧
        8 ≤ (raw.toList.filter (fun c => c.isDigit)).length ∧
        (raw.toList.filter (fun c => c.isDigit)).length ≤ 15)) ∧
    (normalize_phone_e164_fallback raw = "" ∨
      (normalize_phone_e164_fallback raw).toList =
        '+' :: raw.toList.filter (fun c => c.isDigit)) := by
  obtain ⟨l⟩ := raw
  have htl : (String.mk l).toList = l := rfl
  rw [htl]
  cases hl : l.filter (fun c => c.isDigit || c == '+') with
  | nil =>
    have hn : normalize_phone_e164_fallback (String.mk l) = "" := by
      simp only [normalize_phone_e164_fallback, htl, hl]
    rw [hn]
    simp
  | cons c rest =>
    by_cases hc : c = '+'
    · subst hc
      have hdig : rest.filter (fun c => c.isDigit) = l.filter (fun c => c.isDigit) := by
        have h0 := filter_digit_filter_keep l
        rw [hl, List.filter_cons] at h0
        simpa using h0
      rw [← hdig]
      by_cases hr : 8 ≤ (rest.filter (fun c => c.isDigit)).length ∧
          (rest.filter (fun c => c.isDigit)).length ≤ 15
      · have hn : normalize_phone_e164_fallback (String.mk l) =
            String.mk ('+' :: rest.filter (fun c => c.isDigit)) := by
          simp only [normalize_phone_e164_fallback, htl, hl, if_pos rfl, if_pos hr, if_true]
        rw [hn]
        refine ⟨⟨fun _ => ⟨rfl, hr.1, hr.2⟩, fun _ hcontr => ?_⟩, Or.inr rfl⟩
        exact absurd (congrArg String.data hcontr) (by simp)
      · have hn : normalize_phone_e164_fallback (String.mk l) = "" := by
          simp only [normalize_phone_e164_fallback, htl, hl, if_pos rfl, if_neg hr, if_true]
        rw [hn]
        refine ⟨⟨fun hcontr => absurd rfl hcontr, ?_⟩, Or.inl rfl⟩
        rintro ⟨-, h1, h2⟩
        exact absurd ⟨h1, h2⟩ hr
    · have hn : normalize_phone_e164_fallback (String.mk l) = "" := by
        simp only [normalize_phone_e164_fallback, htl, hl, if_neg hc]
      rw [hn]
      refine ⟨?_, Or.inl rfl⟩
      simp [hc]

/-- The clock-out branch either leaves the state alone without firing, or
fires with all four of its gates satisfied, stamping the cooldown and
incrementing the `on` counter. -/
theorem onCore_cases (t c a m : Int) (inp : TickIn) (st : St) :
    onCore t c a m inp st = (st, false) ∨
    (onCore t c a m inp st =
        ({ st with lastOn := inp.now,
                   day := some (inc_count st.day inp.today .onK) }, true) ∧
      t * 60 ≤ inp.idle ∧ is_after_cutoff_local a inp.nowHour = true ∧
      get_count st.day inp.today .onK < max 0 m ∧ c * 60 ≤ inp.now - st.lastOn) := by
  unfold onCore
  split_ifs with h1 h2 h3
  · exact Or.inr ⟨rfl, h1.1, h1.2, h2, h3⟩
  · exact Or.inl rfl
  · exact Or.inl rfl
  · exact Or.inl rfl

/-- When all four gates of the clock-out branch hold, it fires. -/
theorem onCore_fires {t c a m : Int} {inp : TickIn} {st : St}
    (h1 : t * 60 ≤ inp.idle) (h2 : is_after_cutoff_local a inp.nowHour = true)
    (h3 : get_count st.day inp.today .onK < max 0 m)
    (h4 : c * 60 ≤ inp.now - st.lastOn) :
    (onCore t c a m inp st).2 = true := by
  unfold onCore
  rw [if_pos ⟨h1, h2⟩, if_pos h3, if_pos h4]

/-- The clock-in branch always performs the streak update; beyond that it
either does nothing, or fires with its gates satisfied, stamping the
cooldown and incrementing the `off` counter. -/
theorem offCore_cases (cut t c ch m : Int) (inp : TickIn) (st : St) :
    offCore cut t c ch m inp st = (streakUpd cut inp st, false) ∨
    (offCore cut t c ch m inp st =
        ({ (streakUpd cut inp st) with
            lastOff := inp.now,
            day := some (inc_count st.day inp.today .offK) }, true) ∧
      t * 60 ≤ (streakUpd cut inp st).streak ∧
      is_before_cutoff_local ch inp.nowHour = true ∧
      get_count st.day inp.today .offK < max 0 m ∧
      c * 60 ≤ inp.now - st.lastOff) := by
  unfold offCore
  dsimp only
  split_ifs with h1 h2 h3
  · exact Or.inr ⟨rfl, h1.1, h1.2, h2, h3⟩
  · exact Or.inl rfl
  · exact Or.inl rfl
  · exact Or.inl rfl

/-- When all gates of the clock-in branch hold (on the updated streak), it
fires. -/
theorem offCore_fires {cut t c ch m : Int} {inp : TickIn} {st : St}
    (h1 : t * 60 ≤ (streakUpd cut inp st).streak)
    (h2 : is_before_cutoff_local ch inp.nowHour = true)
    (h3 : get_count st.day inp.today .offK < max 0 m)
    (h4 : c * 60 ≤ inp.now - st.lastOff) :
    (offCore cut t c ch m inp st).2 = true := by
  unfold offCore
  dsimp only
  rw [if_pos ⟨h1, h2⟩,
    if_pos (show get_count (streakUpd cut inp st).day inp.today .offK < max 0 m
      from h3),
    if_pos (show c * 60 ≤ inp.now - (streakUpd cut inp st).lastOff from h4)]

/-- The SMS branch either does not attempt a send and changes nothing, or
attempts one with its gates (phone, window, idle, dual cap) all satisfied;
a successful attempt increments both sms counters, a failed one changes
nothing. -/
theorem smsCore_cases (t d mm s e : Int) (ph : String) (inp : TickIn) (st : St) :
    smsCore t d mm s e ph inp st = (st, false, false) ∨
    ((pyStrip ph ≠ "" ∧ is_in_hour_window s e inp.nowHour = true ∧
        t * 60 ≤ inp.idle ∧
        get_count st.day inp.today .smsK < max 0 d ∧
        get_month_sms_count st.month inp.month < max 0 mm) ∧
      ((inp.smsOk = false ∧ smsCore t d mm s e ph inp st = (st, true, false)) ∨
       (inp.smsOk = true ∧ smsCore t d mm s e ph inp st =
          ({ st with day := some (inc_count st.day inp.today .smsK),
                     month := some (inc_month_sms_count st.month inp.month) },
            true, true)))) := by
  unfold smsCore
  split_ifs with h1 h2 h3
  · exact Or.inr ⟨⟨h1.1, h1.2.1, h1.2.2, h2.1, h2.2⟩, Or.inr ⟨h3, rfl⟩⟩
  · exact Or.inr ⟨⟨h1.1, h1.2.1, h1.2.2, h2.1, h2.2⟩,
      Or.inl ⟨Bool.not_eq_true _ ▸ h3, rfl⟩⟩
  · exact Or.inl rfl
  · exact Or.inl rfl

/-- A disabled weekday makes the tick a no-op (helper form). -/
theorem tick_skip_day (cfg : Settings) (inp : TickIn) (st : St)
    (h : is_notification_day_enabled cfg inp.weekday = false) :
    tick cfg inp st = (st, Acts.none) := by
  simp [tick, h]

/-- Evaluation of a tick in status `"On"` with the clock-out reminder
enabled: the `onCore` branch runs, then optionally the SMS branch on its
resulting state. -/
theorem tick_eval_on (cfg : Settings) (inp : TickIn) (st : St)
    (hday : is_notification_day_enabled cfg inp.weekday = true)
    (hOn : st.status = "On") (hco : cfg.enable_clock_out_idle_reminder = true) :
    tick cfg inp st =
      (let o := onCore cfg.on_idle_threshold_min cfg.on_idle_prompt_cooldown_min
         cfg.on_idle_after_hour cfg.max_clock_out_per_day inp st
       let q := if cfg.enable_sms_clock_out_reminder = true then
           smsCore cfg.sms_idle_threshold_min cfg.sms_max_per_day
             cfg.sms_max_per_month cfg.sms_window_start_hour
             cfg.sms_window_end_hour cfg.sms_phone_e164 inp o.1
         else (o.1, false, false)
       (q.1, ⟨o.2, false, q.2.1, q.2.2⟩)) := by
  unfold tick
  have hc2 : st.status = "On" ∧ cfg.enable_clock_out_idle_reminder = true := ⟨hOn, hco⟩
  rw [if_pos hday, if_pos hc2]
  dsimp only
  by_cases hsms : cfg.enable_sms_clock_out_reminder = true
  · have hc4 : st.status = "On" ∧ cfg.enable_sms_clock_out_reminder = true :=
      ⟨hOn, hsms⟩
    rw [if_pos hc4, if_pos hsms]
  · have hc4 : ¬(st.status = "On" ∧ cfg.enable_sms_clock_out_reminder = true) :=
      fun h => hsms h.2
    rw [if_neg hc4, if_neg hsms]

/-- Evaluation of a tick in status `"Off"` with the clock-in reminder
enabled: only the `offCore` branch runs (the SMS branch requires `"On"`). -/
theorem tick_eval_off (cfg : Settings) (inp : TickIn) (st : St)
    (hday : is_notification_day_enabled cfg inp.weekday = true)
    (hOff : st.status = "Off") (hci : cfg.enable_clock_in_reminder = true) :
    tick cfg inp st =
      ((offCore cfg.active_idle_cutoff_sec cfg.active_threshold_off_min
          cfg.off_prompt_cooldown_min cfg.clock_in_cutoff_hour
          cfg.max_clock_in_per_day inp st).1,
        ⟨false, (offCore cfg.active_idle_cutoff_sec cfg.active_threshold_off_min
          cfg.off_prompt_cooldown_min cfg.clock_in_cutoff_hour
          cfg.max_clock_in_per_day inp st).2, false, false⟩) := by
  have hne : ¬(st.status = "On") := by
    rw [hOff]; decide
  have hc2 : ¬(st.status = "On" ∧ cfg.enable_clock_out_idle_reminder = true) :=
    fun h => hne h.1
  have hc3 : st.status = "Off" ∧ cfg.enable_clock_in_reminder = true := ⟨hOff, hci⟩
  have hc4 : ¬(st.status = "On" ∧ cfg.enable_sms_clock_out_reminder = true) :=
    fun h => hne h.1
  unfold tick
  rw [if_pos hday, if_neg hc2, if_pos hc3]
  dsimp only
  rw [if_neg hc4]

/-- Evaluation of a tick when neither desktop branch applies: only the SMS
branch can run, directly on the incoming state. -/
theorem tick_eval_other (cfg : Settings) (inp : TickIn) (st : St)
    (hday : is_notification_day_enabled cfg inp.weekday = true)
    (hn2 : ¬(st.status = "On" ∧ cfg.enable_clock_out_idle_reminder = true))
    (hn3 : ¬(st.status = "Off" ∧ cfg.enable_clock_in_reminder = true)) :
    tick cfg inp st =
      (let q := if st.status = "On" ∧ cfg.enable_sms_clock_out_reminder = true then
           smsCore cfg.sms_idle_threshold_min cfg.sms_max_per_day
             cfg.sms_max_per_month cfg.sms_window_start_hour
             cfg.sms_window_end_hour cfg.sms_phone_e164 inp st
         else (st, false, false)
       (q.1, ⟨false, false, q.2.1, q.2.2⟩)) := by
  unfold tick
  rw [if_pos hday, if_neg hn2, if_neg hn3]

/-- The clock-out branch never touches the sms day counter, the month
store, the streak, the status or the `off` cooldown. -/
theorem onCore_keeps (t c a m : Int) (inp : TickIn) (st : St) {k : Kind}
    (hk : k ≠ .onK) :
    get_count (onCore t c a m inp st).1.day inp.today k =
      get_count st.day inp.today k ∧
    (onCore t c a m inp st).1.month = st.month ∧
    (onCore t c a m inp st).1.status = st.status ∧
    (onCore t c a m inp st).1.streak = st.streak ∧
    (onCore t c a m inp st).1.lastOff = st.lastOff := by
  rcases onCore_cases t c a m inp st with h | ⟨h, -, -, -, -⟩ <;> rw [h]
  · exact ⟨rfl, rfl, rfl, rfl, rfl⟩
  · exact ⟨get_count_inc_of_ne st.day inp.today (Ne.symm hk), rfl, rfl, rfl, rfl⟩

/-- The clock-in branch never touches the `on` or sms day counters, the
month store, the status or the `on` cooldown. -/
theorem offCore_keeps (cut t c ch m : Int) (inp : TickIn) (st : St) {k : Kind}
    (hk : k ≠ .offK) :
    get_count (offCore cut t c ch m inp st).1.day inp.today k =
      get_count st.day inp.today k ∧
    (offCore cut t c ch m inp st).1.month = st.month ∧
    (offCore cut t c ch m inp st).1.status = st.status ∧
    (offCore cut t c ch m inp st).1.lastOn = st.lastOn := by
  rcases offCore_cases cut t c ch m inp st with h | ⟨h, -, -, -, -⟩ <;> rw [h]
  · exact ⟨rfl, rfl, rfl, rfl⟩
  · exact ⟨get_count_inc_of_ne st.day inp.today (Ne.symm hk), rfl, rfl, rfl⟩

/-- The SMS branch never touches the `on`/`off` day counters, the streak,
the status or either cooldown timestamp. -/
theorem smsCore_keeps (t d mm s e : Int) (ph : String) (inp : TickIn) (st : St)
    {k : Kind} (hk : k ≠ .smsK) :
    get_count (smsCore t d mm s e ph inp st).1.day inp.today k =
      get_count st.day inp.today k ∧
    (smsCore t d mm s e ph inp st).1.status = st.status ∧
    (smsCore t d mm s e ph inp st).1.streak = st.streak ∧
    (smsCore t d mm s e ph inp st).1.lastOn = st.lastOn ∧
    (smsCore t d mm s e ph inp st).1.lastOff = st.lastOff := by
  rcases smsCore_cases t d mm s e ph inp st with h | ⟨-, ⟨-, h⟩ | ⟨-, h⟩⟩ <;> rw [h]
  · exact ⟨rfl, rfl, rfl, rfl, rfl⟩
  · exact ⟨rfl, rfl, rfl, rfl, rfl⟩
  · exact ⟨get_count_inc_of_ne st.day inp.today (Ne.symm hk), rfl, rfl, rfl, rfl⟩

/-- Contract of the SMS branch in isolation (for nonnegative caps): an
attempt implies both caps were respected; a successful attempt bumps both
sms counters by one; a failed attempt leaves the state untouched. -/
theorem smsCore_contract (t d mm s e : Int) (ph : String) (inp : TickIn) (st : St)
    (hd : 0 ≤ d) (hmn : 0 ≤ mm) :
    ((smsCore t d mm s e ph inp st).2.1 = true →
      get_count st.day inp.today .smsK < d ∧
      get_month_sms_count st.month inp.month < mm) ∧
    ((smsCore t d mm s e ph inp st).2.1 = true → inp.smsOk = true →
      get_count (smsCore t d mm s e ph inp st).1.day inp.today .smsK =
        get_count st.day inp.today .smsK + 1 ∧
      get_month_sms_count (smsCore t d mm s e ph inp st).1.month inp.month =
        get_month_sms_count st.month inp.month + 1) ∧
    ((smsCore t d mm s e ph inp st).2.1 = true → inp.smsOk = false →
      (smsCore t d mm s e ph inp st).1 = st) := by
  rcases smsCore_cases t d mm s e ph inp st with hS | ⟨⟨-, -, -, hcap1, hcap2⟩, hcase⟩
  · rw [hS]
    exact ⟨fun h => Bool.noConfusion h, fun h => Bool.noConfusion h,
      fun h => Bool.noConfusion h⟩
  · rw [max_eq_right hd] at hcap1
    rw [max_eq_right hmn] at hcap2
    rcases hcase with ⟨hok, hS⟩ | ⟨hok, hS⟩
    · rw [hS]
      refine ⟨fun _ => ⟨hcap1, hcap2⟩, fun _ h2 => ?_, fun _ _ => rfl⟩
      rw [hok] at h2
      exact Bool.noConfusion h2
    · rw [hS]
      refine ⟨fun _ => ⟨hcap1, hcap2⟩,
        fun _ _ => ⟨get_count_inc_self st.day inp.today .smsK,
          get_month_inc_self st.month inp.month⟩,
        fun _ h2 => ?_⟩
      rw [hok] at h2
      exact Bool.noConfusion h2

/-- C1: with status On and the SMS reminder enabled (and nonnegative
configured caps, as the source's settings form guarantees), an SMS send is
attempted only when both the daily and the monthly sms counters are below
their caps; on transport success both counters grow by exactly one, and on
transport failure neither changes. -/
theorem sms_dual_cap_and_counters (cfg : Settings) (inp : TickIn) (st : St)
    (hOn : st.status = "On") (hsms : cfg.enable_sms_clock_out_reminder = true)
    (hd : 0 ≤ cfg.sms_max_per_day) (hmn : 0 ≤ cfg.sms_max_per_month) :
    ((tick cfg inp st).2.smsAttempt = true →
      get_count st.day inp.today .smsK < cfg.sms_max_per_day ∧
      get_month_sms_count st.month inp.month < cfg.sms_max_per_month) ∧
    ((tick cfg inp st).2.smsAttempt = true → inp.smsOk = true →
      get_count (tick cfg inp st).1.day inp.today .smsK =
        get_count st.day inp.today .smsK + 1 ∧
      get_month_sms_count (tick cfg inp st).1.month inp.month =
        get_month_sms_count st.month inp.month + 1) ∧
    ((tick cfg inp st).2.smsAttempt = true → inp.smsOk = false →
      get_count (tick cfg inp st).1.day inp.today .smsK =
        get_count st.day inp.today .smsK ∧
      get_month_sms_count (tick cfg inp st).1.month inp.month =
        get_month_sms_count st.month inp.month) := by
  by_cases hday : is_notification_day_enabled cfg inp.weekday = true
  · by_cases hco : cfg.enable_clock_out_idle_reminder = true
    · rw [tick_eval_on cfg inp st hday hOn hco]
      dsimp only
      rw [if_pos hsms]
      have hC := smsCore_contract cfg.sms_idle_threshold_min cfg.sms_max_per_day
        cfg.sms_max_per_month cfg.sms_window_start_hour cfg.sms_window_end_hour
        cfg.sms_phone_e164 inp
        (onCore cfg.on_idle_threshold_min cfg.on_idle_prompt_cooldown_min
          cfg.on_idle_after_hour cfg.max_clock_out_per_day inp st).1 hd hmn
      have hK := onCore_keeps cfg.on_idle_threshold_min
        cfg.on_idle_prompt_cooldown_min cfg.on_idle_after_hour
        cfg.max_clock_out_per_day inp st (k := .smsK) (by decide)
      refine ⟨fun h => ?_, fun h h2 => ?_, fun h h2 => ?_⟩
      · obtain ⟨c1, c2⟩ := hC.1 h
        rw [hK.1] at c1
        rw [hK.2.1] at c2
        exact ⟨c1, c2⟩
      · obtain ⟨c1, c2⟩ := hC.2.1 h h2
        rw [hK.1] at c1
        rw [hK.2.1] at c2
        exact ⟨c1, c2⟩
      · have heq := hC.2.2 h h2
        rw [heq]
        exact ⟨hK.1, by rw [hK.2.1]⟩
    · have hn2 : ¬(st.status = "On" ∧ cfg.enable_clock_out_idle_reminder = true) :=
        fun h => hco h.2
      have hn3 : ¬(st.status = "Off" ∧ cfg.enable_clock_in_reminder = true) := by
        rintro ⟨h, -⟩
        rw [hOn] at h
        exact absurd h (by decide)
      rw [tick_eval_other cfg inp st hday hn2 hn3]
      dsimp only
      have hc4 : st.status = "On" ∧ cfg.enable_sms_clock_out_reminder = true :=
        ⟨hOn, hsms⟩
      rw [if_pos hc4]
      have hC := smsCore_contract cfg.sms_idle_threshold_min cfg.sms_max_per_day
        cfg.sms_max_per_month cfg.sms_window_start_hour cfg.sms_window_end_hour
        cfg.sms_phone_e164 inp st hd hmn
      exact ⟨hC.1, hC.2.1,
        fun h h2 => ⟨by rw [hC.2.2 h h2], by rw [hC.2.2 h h2]⟩⟩
  · have hf : is_notification_day_enabled cfg inp.weekday = false := by
      simpa using hday
    rw [tick_skip_day cfg inp st hf]
    exact ⟨fun h => Bool.noConfusion h, fun h => Bool.noConfusion h,
      fun h => Bool.noConfusion h⟩

/-- Witness for `sms_dual_cap_and_counters`: under `cfg0` at `inp0`/`st0`
(both counters zero, transport succeeding) the attempt respects the caps
and the success path bumps both counters to one. -/
theorem sms_dual_cap_and_counters_witness :
    (get_count st0.day inp0.today .smsK < cfg0.sms_max_per_day ∧
      get_month_sms_count st0.month inp0.month < cfg0.sms_max_per_month) ∧
    (get_count (tick cfg0 inp0 st0).1.day inp0.today .smsK =
        get_count st0.day inp0.today .smsK + 1 ∧
      get_month_sms_count (tick cfg0 inp0 st0).1.month inp0.month =
        get_month_sms_count st0.month inp0.month + 1) :=
  ⟨(sms_dual_cap_and_counters cfg0 inp0 st0 rfl rfl (by decide) (by decide)).1
      (by decide),
   (sms_dual_cap_and_counters cfg0 inp0 st0 rfl rfl (by decide) (by decide)).2.1
      (by decide) (by decide)⟩

/-- Characterization of a clock-out desktop fire: exactly when the weekday
gate, the status/enable guard and the `onCore` gates all pass. -/
theorem tick_firedOn_char (cfg : Settings) (inp : TickIn) (st : St) :
    (tick cfg inp st).2.firedOn = true ↔
      (is_notification_day_enabled cfg inp.weekday = true ∧ st.status = "On" ∧
        cfg.enable_clock_out_idle_reminder = true ∧
        (onCore cfg.on_idle_threshold_min cfg.on_idle_prompt_cooldown_min
          cfg.on_idle_after_hour cfg.max_clock_out_per_day inp st).2 = true) := by
  by_cases hday : is_notification_day_enabled cfg inp.weekday = true
  · by_cases h2 : st.status = "On" ∧ cfg.enable_clock_out_idle_reminder = true
    · rw [tick_eval_on cfg inp st hday h2.1 h2.2]
      dsimp only
      exact ⟨fun h => ⟨hday, h2.1, h2.2, h⟩, fun h => h.2.2.2⟩
    · by_cases h3 : st.status = "Off" ∧ cfg.enable_clock_in_reminder = true
      · rw [tick_eval_off cfg inp st hday h3.1 h3.2]
        exact ⟨fun h => Bool.noConfusion h,
          fun h => absurd ⟨h.2.1, h.2.2.1⟩ h2⟩
      · rw [tick_eval_other cfg inp st hday h2 h3]
        dsimp only
        exact ⟨fun h => Bool.noConfusion h,
          fun h => absurd ⟨h.2.1, h.2.2.1⟩ h2⟩
  · have hf : is_notification_day_enabled cfg inp.weekday = false := by
      simpa using hday
    rw [tick_skip_day cfg inp st hf]
    exact ⟨fun h => Bool.noConfusion h, fun h => absurd h.1 hday⟩

/-- Characterization of a clock-in desktop fire: exactly when the weekday
gate, the status/enable guard and the `offCore` gates all pass. -/
theorem tick_firedOff_char (cfg : Settings) (inp : TickIn) (st : St) :
    (tick cfg inp st).2.firedOff = true ↔
      (is_notification_day_enabled cfg inp.weekday = true ∧ st.status = "Off" ∧
        cfg.enable_clock_in_reminder = true ∧
        (offCore cfg.active_idle_cutoff_sec cfg.active_threshold_off_min
          cfg.off_prompt_cooldown_min cfg.clock_in_cutoff_hour
          cfg.max_clock_in_per_day inp st).2 = true) := by
  by_cases hday : is_notification_day_enabled cfg inp.weekday = true
  · by_cases h2 : st.status = "On" ∧ cfg.enable_clock_out_idle_reminder = true
    · rw [tick_eval_on cfg inp st hday h2.1 h2.2]
      dsimp only
      refine ⟨fun h => Bool.noConfusion h, ?_⟩
      rintro ⟨-, hOff, -, -⟩
      rw [h2.1] at hOff
      exact absurd hOff (by decide)
    · by_cases h3 : st.status = "Off" ∧ cfg.enable_clock_in_reminder = true
      · rw [tick_eval_off cfg inp st hday h3.1 h3.2]
        dsimp only
        exact ⟨fun h => ⟨hday, h3.1, h3.2, h⟩, fun h => h.2.2.2⟩
      · rw [tick_eval_other cfg inp st hday h2 h3]
        dsimp only
        exact ⟨fun h => Bool.noConfusion h,
          fun h => absurd ⟨h.2.1, h.2.2.1⟩ h3⟩
  · have hf : is_notification_day_enabled cfg inp.weekday = false := by
      simpa using hday
    rw [tick_skip_day cfg inp st hf]
    exact ⟨fun h => Bool.noConfusion h, fun h => absurd h.1 hday⟩

/-- C3: for each desktop reminder kind, a fire stamps the cooldown file
with the current time; while the cooldown (in seconds) since the last
stamp has not elapsed no fire of that kind happens; and once it has
elapsed, a fire happens whenever every other gate is satisfied. -/
theorem cooldown_enforcement (cfg : Settings) (inp : TickIn) (st : St) :
    ((tick cfg inp st).2.firedOn = true → (tick cfg inp st).1.lastOn = inp.now) ∧
    (inp.now - st.lastOn < cfg.on_idle_prompt_cooldown_min * 60 →
      (tick cfg inp st).2.firedOn = false) ∧
    (is_notification_day_enabled cfg inp.weekday = true →
      st.status = "On" → cfg.enable_clock_out_idle_reminder = true →
      cfg.on_idle_threshold_min * 60 ≤ inp.idle →
      is_after_cutoff_local cfg.on_idle_after_hour inp.nowHour = true →
      get_count st.day inp.today .onK < max 0 cfg.max_clock_out_per_day →
      cfg.on_idle_prompt_cooldown_min * 60 ≤ inp.now - st.lastOn →
      (tick cfg inp st).2.firedOn = true) ∧
    ((tick cfg inp st).2.firedOff = true → (tick cfg inp st).1.lastOff = inp.now) ∧
    (inp.now - st.lastOff < cfg.off_prompt_cooldown_min * 60 →
      (tick cfg inp st).2.firedOff = false) ∧
    (is_notification_day_enabled cfg inp.weekday = true →
      st.status = "Off" → cfg.enable_clock_in_reminder = true →
      cfg.active_threshold_off_min * 60 ≤
        (streakUpd cfg.active_idle_cutoff_sec inp st).streak →
      is_before_cutoff_local cfg.clock_in_cutoff_hour inp.nowHour = true →
      get_count st.day inp.today .offK < max 0 cfg.max_clock_in_per_day →
      cfg.off_prompt_cooldown_min * 60 ≤ inp.now - st.lastOff →
      (tick cfg inp st).2.firedOff = true) := by
  refine ⟨?_, ?_, ?_, ?_, ?_, ?_⟩
  · intro h
    obtain ⟨hday, hOn, hco, hfire⟩ := (tick_firedOn_char cfg inp st).mp h
    rw [tick_eval_on cfg inp st hday hOn hco]
    dsimp only
    rcases onCore_cases cfg.on_idle_threshold_min cfg.on_idle_prompt_cooldown_min
        cfg.on_idle_after_hour cfg.max_clock_out_per_day inp st with
      hO | ⟨hO, -, -, -, -⟩
    · rw [hO] at hfire
      exact Bool.noConfusion hfire
    · by_cases hsms : cfg.enable_sms_clock_out_reminder = true
      · rw [if_pos hsms]
        have hK := smsCore_keeps cfg.sms_idle_threshold_min cfg.sms_max_per_day
          cfg.sms_max_per_month cfg.sms_window_start_hour cfg.sms_window_end_hour
          cfg.sms_phone_e164 inp
          (onCore cfg.on_idle_threshold_min cfg.on_idle_prompt_cooldown_min
            cfg.on_idle_after_hour cfg.max_clock_out_per_day inp st).1
          (k := .onK) (by decide)
        rw [hK.2.2.2.1, hO]
      · rw [if_neg hsms]
        dsimp only
        rw [hO]
  · intro hlt
    cases hfired : (tick cfg inp st).2.firedOn with
    | false => rfl
    | true =>
      exfalso
      obtain ⟨-, -, -, hfire⟩ := (tick_firedOn_char cfg inp st).mp hfired
      rcases onCore_cases cfg.on_idle_threshold_min cfg.on_idle_prompt_cooldown_min
          cfg.on_idle_after_hour cfg.max_clock_out_per_day inp st with
        hO | ⟨-, -, -, -, hcool⟩
      · rw [hO] at hfire
        exact Bool.noConfusion hfire
      · omega
  · intro hday hOn hco h4 h5 h6 h7
    exact (tick_firedOn_char cfg inp st).mpr
      ⟨hday, hOn, hco, onCore_fires h4 h5 h6 h7⟩
  · intro h
    obtain ⟨hday, hOff, hci, hfire⟩ := (tick_firedOff_char cfg inp st).mp h
    rw [tick_eval_off cfg inp st hday hOff hci]
    dsimp only
    rcases offCore_cases cfg.active_idle_cutoff_sec cfg.active_threshold_off_min
        cfg.off_prompt_cooldown_min cfg.clock_in_cutoff_hour
        cfg.max_clock_in_per_day inp st with hO | ⟨hO, -, -, -, -⟩
    · rw [hO] at hfire
      exact Bool.noConfusion hfire
    · rw [hO]
  · intro hlt
    cases hfired : (tick cfg inp st).2.firedOff with
    | false => rfl
    | true =>
      exfalso
      obtain ⟨-, -, -, hfire⟩ := (tick_firedOff_char cfg inp st).mp hfired
      rcases offCore_cases cfg.active_idle_cutoff_sec cfg.active_threshold_off_min
          cfg.off_prompt_cooldown_min cfg.clock_in_cutoff_hour
          cfg.max_clock_in_per_day inp st with hO | ⟨-, -, -, -, hcool⟩
      · rw [hO] at hfire
        exact Bool.noConfusion hfire
      · omega
  · intro hday hOff hci h4 h5 h6 h7
    exact (tick_firedOff_char cfg inp st).mpr
      ⟨hday, hOff, hci, offCore_fires h4 h5 h6 h7⟩

/-- Witness for `cooldown_enforcement`: with the 210-minute cooldown of
`cfg0`, a prompt 1000 seconds after the last one is blocked for both kinds,
and with the cooldown elapsed both kinds fire. -/
theorem cooldown_enforcement_witness :
    (tick cfg0 inp0 { st0 with lastOn := 99000 }).2.firedOn = false ∧
    (tick cfg0 inp0 st0).2.firedOn = true ∧
    (tick cfg0 inpActive { stOff with lastOff := 99000 }).2.firedOff = false ∧
    (tick cfg0 inpActive stOff).2.firedOff = true :=
  ⟨(cooldown_enforcement cfg0 inp0 { st0 with lastOn := 99000 }).2.1 (by decide),
   (cooldown_enforcement cfg0 inp0 st0).2.2.1 (by decide) rfl rfl (by decide)
     (by decide) (by decide) (by decide),
   (cooldown_enforcement cfg0 inpActive { stOff with lastOff := 99000 }).2.2.2.2.1
     (by decide),
   (cooldown_enforcement cfg0 inpActive stOff).2.2.2.2.2 (by decide) rfl rfl
     (by decide) (by decide) (by decide) (by decide)⟩

/-- One tick at a reached daily cap: the capped kind does not fire and its
same-day counter reading is unchanged (other kinds may still act). -/
theorem tick_cap_step (cfg : Settings) (inp : TickIn) (st : St) (k : Kind)
    (hc : 0 ≤ dailyCap cfg k)
    (hcnt : get_count st.day inp.today k = dailyCap cfg k) :
    firedKind (tick cfg inp st).2 k = false ∧
    get_count (tick cfg inp st).1.day inp.today k = dailyCap cfg k := by
  by_cases hday : is_notification_day_enabled cfg inp.weekday = true
  case neg =>
    have hf : is_notification_day_enabled cfg inp.weekday = false := by
      simpa using hday
    rw [tick_skip_day cfg inp st hf]
    exact ⟨by cases k <;> rfl, hcnt⟩
  case pos =>
  by_cases h2 : st.status = "On" ∧ cfg.enable_clock_out_idle_reminder = true
  · rw [tick_eval_on cfg inp st hday h2.1 h2.2]
    dsimp only
    by_cases hsms : cfg.enable_sms_clock_out_reminder = true
    · rw [if_pos hsms]
      cases k with
      | onK =>
        dsimp only [dailyCap] at hc hcnt ⊢
        have hO : (onCore cfg.on_idle_threshold_min cfg.on_idle_prompt_cooldown_min
            cfg.on_idle_after_hour cfg.max_clock_out_per_day inp st).2 = false ∧
            (onCore cfg.on_idle_threshold_min cfg.on_idle_prompt_cooldown_min
              cfg.on_idle_after_hour cfg.max_clock_out_per_day inp st).1 = st := by
          rcases onCore_cases cfg.on_idle_threshold_min
              cfg.on_idle_prompt_cooldown_min cfg.on_idle_after_hour
              cfg.max_clock_out_per_day inp st with hO | ⟨-, -, -, hgate, -⟩
          · rw [hO]
            exact ⟨rfl, rfl⟩
          · rw [max_eq_right hc] at hgate
            omega
        refine ⟨hO.1, ?_⟩
        rw [(smsCore_keeps cfg.sms_idle_threshold_min cfg.sms_max_per_day
            cfg.sms_max_per_month cfg.sms_window_start_hour
            cfg.sms_window_end_hour cfg.sms_phone_e164 inp _
            (k := .onK) (by decide)).1, hO.2, hcnt]
      | offK =>
        dsimp only [dailyCap] at hc hcnt ⊢
        refine ⟨rfl, ?_⟩
        rw [(smsCore_keeps cfg.sms_idle_threshold_min cfg.sms_max_per_day
            cfg.sms_max_per_month cfg.sms_window_start_hour
            cfg.sms_window_end_hour cfg.sms_phone_e164 inp _
            (k := .offK) (by decide)).1,
          (onCore_keeps cfg.on_idle_threshold_min cfg.on_idle_prompt_cooldown_min
            cfg.on_idle_after_hour cfg.max_clock_out_per_day inp st
            (k := .offK) (by decide)).1, hcnt]
      | smsK =>
        dsimp only [dailyCap] at hc hcnt ⊢
        have hOcnt : get_count (onCore cfg.on_idle_threshold_min
            cfg.on_idle_prompt_cooldown_min cfg.on_idle_after_hour
            cfg.max_clock_out_per_day inp st).1.day inp.today .smsK =
            cfg.sms_max_per_day := by
          rw [(onCore_keeps cfg.on_idle_threshold_min
            cfg.on_idle_prompt_cooldown_min cfg.on_idle_after_hour
            cfg.max_clock_out_per_day inp st (k := .smsK) (by decide)).1, hcnt]
        have hS : (smsCore cfg.sms_idle_threshold_min cfg.sms_max_per_day
            cfg.sms_max_per_month cfg.sms_window_start_hour
            cfg.sms_window_end_hour cfg.sms_phone_e164 inp
            (onCore cfg.on_idle_threshold_min cfg.on_idle_prompt_cooldown_min
              cfg.on_idle_after_hour cfg.max_clock_out_per_day inp st).1).2.1 =
              false ∧
            (smsCore cfg.sms_idle_threshold_min cfg.sms_max_per_day
              cfg.sms_max_per_month cfg.sms_window_start_hour
              cfg.sms_window_end_hour cfg.sms_phone_e164 inp
              (onCore cfg.on_idle_threshold_min cfg.on_idle_prompt_cooldown_min
                cfg.on_idle_after_hour cfg.max_clock_out_per_day inp st).1).1 =
              (onCore cfg.on_idle_threshold_min cfg.on_idle_prompt_cooldown_min
                cfg.on_idle_after_hour cfg.max_clock_out_per_day inp st).1 := by
          rcases smsCore_cases cfg.sms_idle_threshold_min cfg.sms_max_per_day
              cfg.sms_max_per_month cfg.sms_window_start_hour
              cfg.sms_window_end_hour cfg.sms_phone_e164 inp
              (onCore cfg.on_idle_threshold_min cfg.on_idle_prompt_cooldown_min
                cfg.on_idle_after_hour cfg.max_clock_out_per_day inp st).1 with
            hS | ⟨⟨-, -, -, hcap, -⟩, -⟩
          · rw [hS]
            exact ⟨rfl, rfl⟩
          · rw [max_eq_right hc] at hcap
            omega
        exact ⟨hS.1, by rw [hS.2, hOcnt]⟩
    · rw [if_neg hsms]
      dsimp only
      cases k with
      | onK =>
        dsimp only [dailyCap] at hc hcnt ⊢
        have hO : (onCore cfg.on_idle_threshold_min cfg.on_idle_prompt_cooldown_min
            cfg.on_idle_after_hour cfg.max_clock_out_per_day inp st).2 = false ∧
            (onCore cfg.on_idle_threshold_min cfg.on_idle_prompt_cooldown_min
              cfg.on_idle_after_hour cfg.max_clock_out_per_day inp st).1 = st := by
          rcases onCore_cases cfg.on_idle_threshold_min
              cfg.on_idle_prompt_cooldown_min cfg.on_idle_after_hour
              cfg.max_clock_out_per_day inp st with hO | ⟨-, -, -, hgate, -⟩
          · rw [hO]
            exact ⟨rfl, rfl⟩
          · rw [max_eq_right hc] at hgate
            omega
        exact ⟨hO.1, by rw [hO.2, hcnt]⟩
      | offK =>
        refine ⟨rfl, ?_⟩
        rw [(onCore_keeps cfg.on_idle_threshold_min cfg.on_idle_prompt_cooldown_min
          cfg.on_idle_after_hour cfg.max_clock_out_per_day inp st
          (k := .offK) (by decide)).1, hcnt]
      | smsK =>
        refine ⟨rfl, ?_⟩
        rw [(onCore_keeps cfg.on_idle_threshold_min cfg.on_idle_prompt_cooldown_min
          cfg.on_idle_after_hour cfg.max_clock_out_per_day inp st
          (k := .smsK) (by decide)).1, hcnt]
  · by_cases h3 : st.status = "Off" ∧ cfg.enable_clock_in_reminder = true
    · rw [tick_eval_off cfg inp st hday h3.1 h3.2]
      dsimp only
      cases k with
      | onK =>
        refine ⟨rfl, ?_⟩
        rw [(offCore_keeps cfg.active_idle_cutoff_sec cfg.active_threshold_off_min
          cfg.off_prompt_cooldown_min cfg.clock_in_cutoff_hour
          cfg.max_clock_in_per_day inp st (k := .onK) (by decide)).1, hcnt]
      | offK =>
        dsimp only [dailyCap] at hc hcnt ⊢
        have hO : (offCore cfg.active_idle_cutoff_sec cfg.active_threshold_off_min
            cfg.off_prompt_cooldown_min cfg.clock_in_cutoff_hour
            cfg.max_clock_in_per_day inp st).2 = false ∧
            get_count (offCore cfg.active_idle_cutoff_sec
              cfg.active_threshold_off_min cfg.off_prompt_cooldown_min
              cfg.clock_in_cutoff_hour cfg.max_clock_in_per_day inp st).1.day
              inp.today .offK = get_count st.day inp.today .offK := by
          rcases offCore_cases cfg.active_idle_cutoff_sec
              cfg.active_threshold_off_min cfg.off_prompt_cooldown_min
              cfg.clock_in_cutoff_hour cfg.max_clock_in_per_day inp st with
            hO | ⟨-, -, -, hgate, -⟩
          · rw [hO]
            exact ⟨rfl, rfl⟩
          · rw [max_eq_right hc] at hgate
            omega
        exact ⟨hO.1, by rw [hO.2, hcnt]⟩
      | smsK =>
        refine ⟨rfl, ?_⟩
        rw [(offCore_keeps cfg.active_idle_cutoff_sec cfg.active_threshold_off_min
          cfg.off_prompt_cooldown_min cfg.clock_in_cutoff_hour
          cfg.max_clock_in_per_day inp st (k := .smsK) (by decide)).1, hcnt]
    · rw [tick_eval_other cfg inp st hday h2 h3]
      dsimp only
      by_cases h4 : st.status = "On" ∧ cfg.enable_sms_clock_out_reminder = true
      · rw [if_pos h4]
        cases k with
        | onK =>
          refine ⟨rfl, ?_⟩
          rw [(smsCore_keeps cfg.sms_idle_threshold_min cfg.sms_max_per_day
            cfg.sms_max_per_month cfg.sms_window_start_hour
            cfg.sms_window_end_hour cfg.sms_phone_e164 inp st
            (k := .onK) (by decide)).1, hcnt]
        | offK =>
          refine ⟨rfl, ?_⟩
          rw [(smsCore_keeps cfg.sms_idle_threshold_min cfg.sms_max_per_day
            cfg.sms_max_per_month cfg.sms_window_start_hour
            cfg.sms_window_end_hour cfg.sms_phone_e164 inp st
            (k := .offK) (by decide)).1, hcnt]
        | smsK =>
          dsimp only [dailyCap] at hc hcnt ⊢
          have hS : (smsCore cfg.sms_idle_threshold_min cfg.sms_max_per_day
              cfg.sms_max_per_month cfg.sms_window_start_hour
              cfg.sms_window_end_hour cfg.sms_phone_e164 inp st).2.1 = false ∧
              (smsCore cfg.sms_idle_threshold_min cfg.sms_max_per_day
                cfg.sms_max_per_month cfg.sms_window_start_hour
                cfg.sms_window_end_hour cfg.sms_phone_e164 inp st).1 = st := by
            rcases smsCore_cases cfg.sms_idle_threshold_min cfg.sms_max_per_day
                cfg.sms_max_per_month cfg.sms_window_start_hour
                cfg.sms_window_end_hour cfg.sms_phone_e164 inp st with
              hS | ⟨⟨-, -, -, hcap, -⟩, -⟩
            · rw [hS]
              exact ⟨rfl, rfl⟩
            · rw [max_eq_right hc] at hcap
              omega
          exact ⟨hS.1, by rw [hS.2, hcnt]⟩
      · rw [if_neg h4]
        exact ⟨by cases k <;> rfl, hcnt⟩

/-- C4: once a kind's day counter equals its (nonnegative) configured daily
cap, no tick of any later same-day run fires that kind again. -/
theorem daily_cap_blocks (cfg : Settings) (k : Kind) (t : String)
    (inps : List TickIn) (st : St)
    (hall : ∀ i ∈ inps, i.today = t)
    (hc : 0 ≤ dailyCap cfg k)
    (hcnt : get_count st.day t k = dailyCap cfg k) :
    ∀ a ∈ (ticks cfg inps st).2, firedKind a k = false := by
  revert hall hcnt
  induction inps generalizing st with
  | nil =>
    intro hall hcnt a ha
    simp [ticks] at ha
  | cons i is ih =>
    intro hall hcnt a ha
    have hti : i.today = t := hall i (List.mem_cons_self i is)
    have hstep := tick_cap_step cfg i st k hc (by rw [hti]; exact hcnt)
    rw [show ticks cfg (i :: is) st =
        ((ticks cfg is (tick cfg i st).1).1,
          (tick cfg i st).2 :: (ticks cfg is (tick cfg i st).1).2) from rfl] at ha
    rcases List.mem_cons.mp ha with rfl | hmem
    · exact hstep.1
    · exact ih (tick cfg i st).1 (fun j hj => hall j (List.mem_cons_of_mem _ hj))
        (by rw [← hti]; exact hstep.2) a hmem

/-- Witness for `daily_cap_blocks`: with the `on` counter already at the
cap 3 under `cfg0`, the otherwise-firing tick `inp0` does not fire it. -/
theorem daily_cap_blocks_witness :
    firedKind (tick cfg0 inp0 { st0 with day := some ⟨"2026-10-12", 3, 0, 0⟩ }).2
      .onK = false :=
  daily_cap_blocks cfg0 .onK "2026-10-12" [inp0]
    { st0 with day := some ⟨"2026-10-12", 3, 0, 0⟩ }
    (by decide) (by decide) (by decide)
    (tick cfg0 inp0 { st0 with day := some ⟨"2026-10-12", 3, 0, 0⟩ }).2
    (by simp [ticks])

/-- C6 counterexample: clocked Off and active (idle 0 < 300) but with the
clock-in reminder disabled, the tick leaves the streak at 1790 instead of
accruing the poll interval as the claim requires for every Off tick. -/
theorem streak_counterexample :
    stOff.status = "Off" ∧ inpActive.idle < cfgNoCI.active_idle_cutoff_sec ∧
    (tick cfgNoCI inpActive stOff).1.streak ≠
      stOff.streak + POLL_INTERVAL_SEC := by decide

/-- C6 (amended): on a tick that passes the weekday gate, with status Off
and the clock-in reminder enabled, the streak accrues by the poll interval
when idle is below the activity cutoff and resets to zero otherwise; and an
explicit clock-state change always resets the streak to zero. -/
theorem streak_accrual_spec (cfg : Settings) (inp : TickIn) (st : St)
    (hday : is_notification_day_enabled cfg inp.weekday = true)
    (hOff : st.status = "Off") (hci : cfg.enable_clock_in_reminder = true) :
    ((tick cfg inp st).1.streak =
      if inp.idle < cfg.active_idle_cutoff_sec then st.streak + POLL_INTERVAL_SEC
      else 0) ∧
    (∀ (st' : St) (s : String), (set_status st' s).streak = 0) := by
  refine ⟨?_, fun st' s => rfl⟩
  rw [tick_eval_off cfg inp st hday hOff hci]
  dsimp only
  rcases offCore_cases cfg.active_idle_cutoff_sec cfg.active_threshold_off_min
      cfg.off_prompt_cooldown_min cfg.clock_in_cutoff_hour
      cfg.max_clock_in_per_day inp st with hO | ⟨hO, -, -, -, -⟩ <;>
    rw [hO] <;> rfl

/-- Witness for `streak_accrual_spec`: the active Off tick accrues 10
seconds onto the 1790-second streak. -/
theorem streak_accrual_spec_witness :
    (tick cfg0 inpActive stOff).1.streak =
      if inpActive.idle < cfg0.active_idle_cutoff_sec then
        stOff.streak + POLL_INTERVAL_SEC
      else 0 :=
  (streak_accrual_spec cfg0 inpActive stOff (by decide) rfl rfl).1

/-- C8 counterexample: with the clock-out idle threshold set to the string
"abc" (and everything else at defaults with an hour of idle), the real tick
raises and does nothing, while the spec's default-substitution evaluation
would fire the clock-out reminder. -/
theorem malformed_setting_counterexample :
    (tickRaw cfgBad inp0 st0).raised = true ∧
    (tickRaw cfgBad inp0 st0).acts = Acts.none ∧
    (tickRaw cfgBad inp0 st0).st = st0 ∧
    (tick (substDefaults cfgBad) inp0 st0).2.firedOn = true := by decide

/-- C8 (amended): a malformed numeric value read by the taken branch makes
the tick raise — here, any of the four clock-out-branch conversions failing
while status is On aborts the whole tick with no action fired and the state
untouched (the exception is caught at the top of `monitor_loop`, which
skips to the next tick instead of crashing). -/
theorem malformed_setting_skips_tick (cfg : RawSettings) (inp : TickIn) (st : St)
    (hday : cfg.notify_days.get inp.weekday = true)
    (hOn : st.status = "On") (hco : cfg.enable_clock_out_idle_reminder = true)
    (hbad : pyInt cfg.on_idle_threshold_min = none ∨
      pyInt cfg.on_idle_prompt_cooldown_min = none ∨
      pyInt cfg.on_idle_after_hour = none ∨
      pyInt cfg.max_clock_out_per_day = none) :
    tickRaw cfg inp st = ⟨st, Acts.none, true⟩ := by
  have hb : onBranchRaw cfg inp st = none := by
    cases h1 : pyInt cfg.on_idle_threshold_min <;>
      cases h2 : pyInt cfg.on_idle_prompt_cooldown_min <;>
        cases h3 : pyInt cfg.on_idle_after_hour <;>
          cases h4 : pyInt cfg.max_clock_out_per_day <;>
            simp_all [onBranchRaw]
  have hc2 : st.status = "On" ∧ cfg.enable_clock_out_idle_reminder = true :=
    ⟨hOn, hco⟩
  unfold tickRaw
  rw [if_pos hday]
  dsimp only
  rw [if_pos hc2, hb]

/-- Witness for `malformed_setting_skips_tick` at the concrete snapshot
`cfgBad`. -/
theorem malformed_setting_skips_tick_witness :
    tickRaw cfgBad inp0 st0 = ⟨st0, Acts.none, true⟩ :=
  malformed_setting_skips_tick cfgBad inp0 st0 (by decide) rfl rfl
    (Or.inl (by decide))

/-- On a snapshot whose numeric keys all hold actual integers, the raw
(fallible) tick never raises and agrees with the well-typed tick. -/
theorem tickRaw_int_agrees (s : Settings) (inp : TickIn) (st : St) :
    tickRaw (rawOfSettings s) inp st =
      ⟨(tick s inp st).1, (tick s inp st).2, false⟩ := by
  simp only [tickRaw, tick, onBranchRaw, offBranchRaw, smsBranchRaw, rawOfSettings,
    pyInt, is_notification_day_enabled]
  split_ifs <;> rfl
